import Mathlib

/-
Formal model of the optimization engine of the Portfolio-Optimization-Framework
repository: the Markowitz minimum-variance / tangency / efficient-frontier
solvers, the risk-parity solver and the maximum-diversification solver
(files src/optimization/markowitz.py, src/optimization/risk_parity.py,
src/optimization/max_diversification.py).

Modelling conventions:
- Python/numpy floats are modelled as exact reals; a numpy value that is not a
  finite real (NaN or an infinity, as produced by np.sqrt of a negative number
  or by division by zero) is modelled by `none` in `Option ℝ` (`NpFloat`).
  All operations of the code that can produce or consume such values are
  modelled with explicit propagation (`npSqrt`, `npDiv`, `npMul`, ...).
- `scipy.optimize.minimize` is external library code, not part of the
  repository; it is modelled as an abstract oracle (`Minimizer`): a function
  from the full argument record of the call (objective, initial guess, bounds,
  equality constraints) to a result record (success flag, solution vector,
  diagnostic message).  All theorems hold for every oracle.
- A Python function that raises is modelled with `Except String`; returning
  `None` is modelled with `Option`.
-/

set_option autoImplicit false
set_option maxHeartbeats 1000000

noncomputable section

namespace PortOpt

/-- A dense real vector indexed by `Fin n` (a 1-d numpy array of length n). -/
abbrev Vec (n : Nat) := Fin n → ℝ

/-- A dense real matrix (a 2-d numpy array / the values of a DataFrame). -/
abbrev Mat (n : Nat) := Fin n → Fin n → ℝ

/-- A numpy floating-point scalar: `some x` is the finite value `x`, `none`
models a non-finite value (NaN or ±Inf). -/
abbrev NpFloat := Option ℝ

/-- Model of `np.sqrt`: NaN (non-finite) on a negative argument, the real
square root otherwise. -/
def npSqrt (x : ℝ) : NpFloat :=
  if x < 0 then none else some (Real.sqrt x)

/-- Model of float negation; negation of a non-finite value is non-finite. -/
def npNeg : NpFloat → NpFloat
  | some a => some (-a)
  | none => none

/-- Model of float multiplication restricted to the uses in this code base:
a product with a non-finite operand is non-finite. -/
def npMul : NpFloat → NpFloat → NpFloat
  | some a, some b => some (a * b)
  | _, _ => none

/-- Model of float subtraction; non-finite operands propagate. -/
def npSub : NpFloat → NpFloat → NpFloat
  | some a, some b => some (a - b)
  | _, _ => none

/-- Model of float squaring (`** 2` in the source). -/
def npSq (x : NpFloat) : NpFloat := npMul x x

/-- Model of float division as used in this code base: division by zero yields
a non-finite value (±Inf or NaN), as do non-finite operands. -/
def npDiv : NpFloat → NpFloat → NpFloat
  | some a, some b => if b = 0 then none else some (a / b)
  | _, _ => none

/-- Model of `np.sum` over a vector of floats: finite exactly when every entry
is finite (a NaN or Inf entry makes the numpy sum non-finite). -/
def npSum {n : Nat} (f : Fin n → NpFloat) : NpFloat :=
  if h : ∀ i, (f i).isSome = true then some (∑ i, (f i).get (h i)) else none

/-- Model of `np.dot` of two finite real vectors. -/
def npDot {n : Nat} (v w : Vec n) : ℝ := ∑ i, v i * w i

/-- Model of `np.dot(Sigma, w)` / `Sigma @ w`: matrix-vector product. -/
def matVec {n : Nat} (S : Mat n) (w : Vec n) : Vec n :=
  fun i => ∑ j, S i j * w j

/-- The radicand `wᵗ Σ w` appearing in every volatility computation of the
source (`np.dot(w.T, np.dot(Sigma, w))` and `w.T @ Sigma @ w`). -/
def quadForm {n : Nat} (S : Mat n) (w : Vec n) : ℝ :=
  npDot w (matVec S w)

/-- The uniform initial guess `np.ones(n) / n` used by every solver. -/
def uniformVec (n : Nat) : Vec n := fun _ => 1 / (n : ℝ)

/-- The bounds argument built by every solver:
`None if short_allowed else [(0.0, 1.0)] * n`. -/
def boundsFor (n : Nat) (short_allowed : Bool) : Option (List (ℝ × ℝ)) :=
  if short_allowed then none else some (List.replicate n (0, 1))

/-- The budget equality constraint `lambda w: np.sum(w) - 1` shared by every
solver (an equality constraint is a function required to be zero). -/
def budget_constraint (n : Nat) : Vec n → ℝ :=
  fun w => (∑ i, w i) - 1

/-- The full argument record of one `scipy.optimize.minimize` call as issued
by this code base: objective, initial guess, bounds, equality constraints. -/
structure MinimizeCall (n : Nat) where
  objective : Vec n → NpFloat
  init : Vec n
  bounds : Option (List (ℝ × ℝ))
  constraints : List (Vec n → ℝ)

/-- The fields of the scipy result object that the code base reads:
`result.success`, `result.x`, `result.message`. -/
structure MinimizeResult (n : Nat) where
  success : Bool
  x : Vec n
  message : String

/-- An abstract model of `scipy.optimize.minimize` (external library code):
any function from the call record to a result record.  Theorems quantify over
all such oracles. -/
abbrev Minimizer (n : Nat) := MinimizeCall n → MinimizeResult n

namespace Markowitz

/-- Model of `MarkowitzOptimizer._portfolio_performance`: returns the pair
(expected return `np.dot(w, mu)`, volatility `np.sqrt(wᵗ Σ w)`). -/
def portfolio_performance {n : Nat} (mu : Vec n) (S : Mat n) (w : Vec n) :
    ℝ × NpFloat :=
  (npDot w mu, npSqrt (quadForm S w))

/-- The `minimize` call issued by `MarkowitzOptimizer.min_variance_portfolio`:
objective `portfolio_volatility`, uniform initial guess, bounds from the
short-selling toggle, budget constraint. -/
def min_variance_call {n : Nat} (S : Mat n) (short_allowed : Bool) :
    MinimizeCall n :=
  ⟨fun w => npSqrt (quadForm S w), uniformVec n, boundsFor n short_allowed,
   [budget_constraint n]⟩

/-- Model of `MarkowitzOptimizer.min_variance_portfolio`:
`result.x if result.success else None`. -/
def min_variance_portfolio {n : Nat} (m : Minimizer n) (S : Mat n)
    (short_allowed : Bool) : Option (Vec n) :=
  let result := m (min_variance_call S short_allowed)
  if result.success then some result.x else none

/-- Model of the local `neg_sharpe_ratio` objective of
`MarkowitzOptimizer.tangency_portfolio`: `- (ret - rf) / vol` with
`ret, vol = _portfolio_performance(w)`. -/
def neg_sharpe_ratio {n : Nat} (mu : Vec n) (rf : ℝ) (S : Mat n) (w : Vec n) :
    NpFloat :=
  npDiv (some (-(npDot w mu - rf))) (npSqrt (quadForm S w))

/-- The `minimize` call issued by `MarkowitzOptimizer.tangency_portfolio`. -/
def tangency_call {n : Nat} (mu : Vec n) (rf : ℝ) (S : Mat n)
    (short_allowed : Bool) : MinimizeCall n :=
  ⟨neg_sharpe_ratio mu rf S, uniformVec n, boundsFor n short_allowed,
   [budget_constraint n]⟩

/-- Model of `MarkowitzOptimizer.tangency_portfolio`:
`result.x if result.success else None`. -/
def tangency_portfolio {n : Nat} (m : Minimizer n) (mu : Vec n) (S : Mat n)
    (rf : ℝ) (short_allowed : Bool) : Option (Vec n) :=
  let result := m (tangency_call mu rf S short_allowed)
  if result.success then some result.x else none

/-- The `minimize` call issued for one grid point of
`MarkowitzOptimizer.efficient_frontier`: volatility objective, uniform initial
guess, budget constraint plus the target-return equality constraint
`lambda w: np.dot(w, mu) - target_ret`. -/
def frontier_call {n : Nat} (mu : Vec n) (S : Mat n) (short_allowed : Bool)
    (target_ret : ℝ) : MinimizeCall n :=
  ⟨fun w => npSqrt (quadForm S w), uniformVec n, boundsFor n short_allowed,
   [budget_constraint n, fun w => npDot w mu - target_ret]⟩

/-- One iteration of the frontier loop: solve the sub-problem for one target
return; on success append the recomputed volatility of `result.x`, otherwise
append `np.nan` (a non-finite entry, modelled `none`). -/
def frontier_point {n : Nat} (m : Minimizer n) (mu : Vec n) (S : Mat n)
    (short_allowed : Bool) (target_ret : ℝ) : NpFloat :=
  let result := m (frontier_call mu S short_allowed target_ret)
  if result.success then npSqrt (quadForm S result.x) else none

/-- The frontier loop of `MarkowitzOptimizer.efficient_frontier`: iterate over
the target returns in order, appending one volatility-or-NaN entry each. -/
def frontier_vols {n : Nat} (m : Minimizer n) (mu : Vec n) (S : Mat n)
    (short_allowed : Bool) : List ℝ → List NpFloat
  | [] => []
  | t :: ts =>
      frontier_point m mu S short_allowed t ::
        frontier_vols m mu S short_allowed ts

/-- Model of `np.linspace(a, b, num)`: `num` evenly spaced values from `a` to
`b` inclusive (`num - 1` equal steps); a single-point request yields `[a]`. -/
def linspace (a b : ℝ) (num : Nat) : List ℝ :=
  if num = 1 then [a]
  else (List.range num).map
    (fun i : Nat => a + (i : ℝ) * (b - a) / ((num : ℝ) - 1))

/-- The message of the `TypeError` that `np.dot(None, mu)` raises inside
`_portfolio_performance` when an endpoint sub-solve returned `None`. -/
def typeErrorMsg : String :=
  "TypeError: unsupported operand for np.dot with None"

/-- Model of `MarkowitzOptimizer.efficient_frontier`.  With an explicit grid
the loop runs directly; with `return_range=None` the grid endpoints are
derived from the minimum-variance and tangency portfolios, both solved with
the default `short_allowed=False` (the source calls them with no arguments).
If either endpoint solve returned `None`, `_portfolio_performance(None)`
raises, modelled as `Except.error`. -/
def efficient_frontier {n : Nat} (m : Minimizer n) (mu : Vec n) (S : Mat n)
    (rf : ℝ) (return_range : Option (List ℝ)) (short_allowed : Bool)
    (points : Nat) : Except String (List ℝ × List NpFloat) :=
  match return_range with
  | some grid => Except.ok (grid, frontier_vols m mu S short_allowed grid)
  | none =>
    match min_variance_portfolio m S false with
    | none => Except.error typeErrorMsg
    | some wMin =>
      match tangency_portfolio m mu S rf false with
      | none => Except.error typeErrorMsg
      | some wTan =>
        let grid := linspace (portfolio_performance mu S wMin).1
          (portfolio_performance mu S wTan).1 points
        Except.ok (grid, frontier_vols m mu S short_allowed grid)

/-- The default of the `points` parameter of `efficient_frontier`. -/
def defaultPoints : Nat := 50

/-- `efficient_frontier` called with all defaulted parameters
(`return_range=None, short_allowed=False, points=50`). -/
def efficient_frontier_defaults {n : Nat} (m : Minimizer n) (mu : Vec n)
    (S : Mat n) (rf : ℝ) : Except String (List ℝ × List NpFloat) :=
  efficient_frontier m mu S rf none false defaultPoints

end Markowitz

/-- A pandas DataFrame holding a covariance matrix: named columns (the asset
identifiers, in order) plus the numeric matrix. -/
structure CovDF (n : Nat) where
  columns : Fin n → String
  entry : Mat n

namespace RiskParity

/-- Model of `RiskParityOptimizer.__init__`'s budget handling:
`np.ones(n)/n if risk_budget is None else np.array(risk_budget)`. -/
def risk_budget (n : Nat) (rb : Option (Vec n)) : Vec n :=
  match rb with
  | none => uniformVec n
  | some b => b

/-- Model of `RiskParityOptimizer._portfolio_volatility`:
`np.sqrt(w.T @ Sigma @ w)`. -/
def portfolio_volatility {n : Nat} (S : Mat n) (w : Vec n) : NpFloat :=
  npSqrt (quadForm S w)

/-- Model of `RiskParityOptimizer._risk_contributions`:
`w * (Sigma @ w) / portfolio_volatility(w)`, elementwise. -/
def risk_contributions {n : Nat} (S : Mat n) (w : Vec n) : Fin n → NpFloat :=
  fun i => npDiv (some (w i * matVec S w i)) (portfolio_volatility S w)

/-- Model of `RiskParityOptimizer._objective`:
`np.sum((risk_contributions(w) - risk_budget) ** 2)`. -/
def objective {n : Nat} (S : Mat n) (b : Vec n) (w : Vec n) : NpFloat :=
  npSum (fun i => npSq (npSub (risk_contributions S w i) (some (b i))))

/-- The `minimize` call issued by `RiskParityOptimizer.optimize`. -/
def optimize_call {n : Nat} (C : CovDF n) (b : Vec n) (short_allowed : Bool) :
    MinimizeCall n :=
  ⟨objective C.entry b, uniformVec n, boundsFor n short_allowed,
   [budget_constraint n]⟩

/-- Model of `RiskParityOptimizer.optimize`: on success, a pandas Series of
the solution indexed by the covariance column names in order; otherwise
`raise ValueError("Optimization failed: " + result.message)`. -/
def optimize {n : Nat} (m : Minimizer n) (C : CovDF n) (rb : Option (Vec n))
    (short_allowed : Bool) : Except String (List (String × ℝ)) :=
  let result := m (optimize_call C (risk_budget n rb) short_allowed)
  if result.success then
    Except.ok ((List.finRange n).map (fun i => (C.columns i, result.x i)))
  else
    Except.error ("Optimization failed: " ++ result.message)

end RiskParity

namespace MaxDiversification

/-- Model of `MaxDiversificationOptimizer.__init__`'s precomputation
`self.sigma_individual = np.sqrt(np.diag(cov_matrix))`. -/
def sigma_individual {n : Nat} (S : Mat n) : Fin n → NpFloat :=
  fun i => npSqrt (S i i)

/-- Model of `MaxDiversificationOptimizer._portfolio_volatility`:
`np.sqrt(w.T @ Sigma @ w)`. -/
def portfolio_volatility {n : Nat} (S : Mat n) (w : Vec n) : NpFloat :=
  npSqrt (quadForm S w)

/-- Model of `MaxDiversificationOptimizer._diversification_ratio`:
`np.dot(w, sigma_individual) / portfolio_volatility(w)`. -/
def diversification_ratio {n : Nat} (S : Mat n) (w : Vec n) : NpFloat :=
  npDiv (npSum (fun i => npMul (some (w i)) (sigma_individual S i)))
    (portfolio_volatility S w)

/-- Model of `MaxDiversificationOptimizer._neg_objective`:
`-diversification_ratio(w)`. -/
def neg_objective {n : Nat} (S : Mat n) (w : Vec n) : NpFloat :=
  npNeg (diversification_ratio S w)

/-- The `minimize` call issued by `MaxDiversificationOptimizer.optimize`. -/
def optimize_call {n : Nat} (C : CovDF n) (short_allowed : Bool) :
    MinimizeCall n :=
  ⟨neg_objective C.entry, uniformVec n, boundsFor n short_allowed,
   [budget_constraint n]⟩

/-- Model of `MaxDiversificationOptimizer.optimize`: on success, a pandas
Series of the solution indexed by the covariance column names in order;
otherwise `raise ValueError("Optimization failed: " + result.message)`. -/
def optimize {n : Nat} (m : Minimizer n) (C : CovDF n) (short_allowed : Bool) :
    Except String (List (String × ℝ)) :=
  let result := m (optimize_call C short_allowed)
  if result.success then
    Except.ok ((List.finRange n).map (fun i => (C.columns i, result.x i)))
  else
    Except.error ("Optimization failed: " ++ result.message)

end MaxDiversification

/-- Specification-side definition, following the spec text for
`portfolioVolatility`: fail with a `NumericError` when the radicand is
negative (the floating tolerance of the spec is modelled as the exact zero
threshold).  Used only to compare the spec's contract with the code. -/
def portfolioVolatilitySpec {n : Nat} (S : Mat n) (w : Vec n) :
    Except String ℝ :=
  if quadForm S w < 0 then Except.error "NumericError"
  else Except.ok (Real.sqrt (quadForm S w))

/-- Specification-side definition, following the spec text for
`riskContribution`: a portfolio volatility indistinguishable from zero must be
detected as a `DegenerateInput` error before the division (the tolerance is
modelled as the exact zero threshold).  Used only to compare the spec's
contract with the code. -/
def riskContributionsSpec {n : Nat} (S : Mat n) (w : Vec n) :
    Except String (Fin n → ℝ) :=
  if Real.sqrt (quadForm S w) = 0 then Except.error "DegenerateInput"
  else Except.ok (fun i => w i * matVec S w i / Real.sqrt (quadForm S w))

/-! Concrete inputs used to instantiate the universally quantified theorems
below on explicit data. -/

/-- A one-asset expected-return / weight vector with entry 1. -/
def oneVec : Vec 1 := fun _ => 1

/-- The one-asset covariance matrix with variance 1. -/
def oneMat : Mat 1 := fun _ _ => 1

/-- A one-asset covariance DataFrame with column name A. -/
def covOne : CovDF 1 := ⟨fun _ => "A", oneMat⟩

/-- An oracle that reports convergence at the vector `oneVec` for every call. -/
def okMinimizer : Minimizer 1 := fun _ => ⟨true, oneVec, "Optimization terminated successfully"⟩

/-- An oracle that reports non-convergence for every call. -/
def failMinimizer : Minimizer 1 := fun _ => ⟨false, fun _ => 0, "Iteration limit reached"⟩

/-- A two-asset expected-return vector. -/
def muTwo : Vec 2 := ![1, 1]

/-- A symmetric indefinite (non-PSD) two-asset covariance matrix:
zero variances, covariance 1. -/
def indefMat : Mat 2 := ![![0, 1], ![1, 0]]

/-- A weight vector on which `indefMat` has a negative quadratic form. -/
def negWeight : Vec 2 := ![1, -1]

/-- The all-zero two-asset covariance matrix (zero portfolio volatility). -/
def zeroMat : Mat 2 := fun _ _ => 0

/-- A risk budget violating the documented invariants: its entry is negative
and it does not sum to 1. -/
def badBudget : Vec 1 := fun _ => -5

/-! Helper lemmas about the numpy model. -/

theorem npSum_eq_some {n : Nat} {f : Fin n → NpFloat} {g : Fin n → ℝ}
    (h : ∀ i, f i = some (g i)) : npSum f = some (∑ i, g i) := by
  have hs : ∀ i, (f i).isSome = true := fun i => by rw [h i]; rfl
  rw [npSum, dif_pos hs]
  refine congrArg some (Finset.sum_congr rfl (fun i _ => ?_))
  exact Option.some.inj (by rw [Option.some_get, h i])

theorem npSqrt_of_nonneg {x : ℝ} (h : 0 ≤ x) : npSqrt x = some (Real.sqrt x) := by
  rw [npSqrt, if_neg (not_lt.mpr h)]

theorem npSqrt_of_neg {x : ℝ} (h : x < 0) : npSqrt x = none := by
  rw [npSqrt, if_pos h]

theorem npDiv_some_ne_zero {a b : ℝ} (hb : b ≠ 0) :
    npDiv (some a) (some b) = some (a / b) := by
  rw [npDiv, if_neg hb]

theorem npDiv_some_zero (a : ℝ) : npDiv (some a) (some 0) = none := by
  rw [npDiv, if_pos rfl]

theorem quadForm_oneMat : quadForm oneMat oneVec = 1 := by
  simp [quadForm, npDot, matVec, oneMat, oneVec]

theorem quadForm_indefMat : quadForm indefMat negWeight = -2 := by
  simp [quadForm, npDot, matVec, indefMat, negWeight, Fin.sum_univ_two]
  norm_num

theorem quadForm_zeroMat : quadForm zeroMat (uniformVec 2) = 0 := by
  simp [quadForm, npDot, matVec, zeroMat]

/-! Helper lemmas about the frontier loop. -/

theorem frontier_vols_eq_map {n : Nat} (m : Minimizer n) (mu : Vec n)
    (S : Mat n) (short_allowed : Bool) (grid : List ℝ) :
    Markowitz.frontier_vols m mu S short_allowed grid =
      grid.map (Markowitz.frontier_point m mu S short_allowed) := by
  induction grid with
  | nil => rfl
  | cons t ts ih => simp [Markowitz.frontier_vols, ih]

theorem frontier_vols_length {n : Nat} (m : Minimizer n) (mu : Vec n)
    (S : Mat n) (short_allowed : Bool) (grid : List ℝ) :
    (Markowitz.frontier_vols m mu S short_allowed grid).length = grid.length := by
  rw [frontier_vols_eq_map, List.length_map]

theorem frontier_vols_append {n : Nat} (m : Minimizer n) (mu : Vec n)
    (S : Mat n) (short_allowed : Bool) (g1 g2 : List ℝ) :
    Markowitz.frontier_vols m mu S short_allowed (g1 ++ g2) =
      Markowitz.frontier_vols m mu S short_allowed g1 ++
        Markowitz.frontier_vols m mu S short_allowed g2 := by
  simp [frontier_vols_eq_map]

theorem frontier_vols_getElem {n : Nat} (m : Minimizer n) (mu : Vec n)
    (S : Mat n) (short_allowed : Bool) (grid : List ℝ) (i : Nat) :
    (Markowitz.frontier_vols m mu S short_allowed grid)[i]? =
      (grid[i]?).map (Markowitz.frontier_point m mu S short_allowed) := by
  rw [frontier_vols_eq_map, List.getElem?_map]

theorem frontier_point_of_failure {n : Nat} (m : Minimizer n) (mu : Vec n)
    (S : Mat n) (short_allowed : Bool) (r : ℝ)
    (h : (m (Markowitz.frontier_call mu S short_allowed r)).success = false) :
    Markowitz.frontier_point m mu S short_allowed r = none := by
  simp [Markowitz.frontier_point, h]

/-! Helper lemmas about `linspace`. -/

theorem linspace_length (a b : ℝ) (num : Nat) :
    (Markowitz.linspace a b num).length = num := by
  rw [Markowitz.linspace]
  by_cases h : num = 1
  · rw [if_pos h, h]
    rfl
  · rw [if_neg h, List.length_map, List.length_range]

theorem linspace_one (a b : ℝ) : Markowitz.linspace a b 1 = [a] := by
  rw [Markowitz.linspace, if_pos rfl]

theorem linspace_getElem {a b : ℝ} {num i : Nat} (h2 : 2 ≤ num) (hi : i < num) :
    (Markowitz.linspace a b num)[i]? =
      some (a + (i : ℝ) * (b - a) / ((num : ℝ) - 1)) := by
  have h1 : ¬ num = 1 := by omega
  rw [Markowitz.linspace, if_neg h1, List.getElem?_map, List.getElem?_range hi]
  rfl

theorem linspace_last {a b : ℝ} {num : Nat} (h2 : 2 ≤ num) :
    (Markowitz.linspace a b num)[num - 1]? = some b := by
  have hi : num - 1 < num := by omega
  rw [linspace_getElem h2 hi]
  have hcast : ((num - 1 : Nat) : ℝ) = (num : ℝ) - 1 := by
    have : 1 ≤ num := by omega
    push_cast [this]
    ring
  have hne : (num : ℝ) - 1 ≠ 0 := by
    have : (2 : ℝ) ≤ (num : ℝ) := by exact_mod_cast h2
    intro hc
    nlinarith
  rw [hcast]
  field_simp

/-! Helper lemmas about the risk-parity and max-diversification objectives. -/

theorem risk_contributions_pos {n : Nat} (S : Mat n) (w : Vec n)
    (h : 0 < quadForm S w) (i : Fin n) :
    RiskParity.risk_contributions S w i =
      some (w i * matVec S w i / Real.sqrt (quadForm S w)) := by
  have hs : Real.sqrt (quadForm S w) ≠ 0 := ne_of_gt (Real.sqrt_pos.mpr h)
  rw [RiskParity.risk_contributions, RiskParity.portfolio_volatility,
    npSqrt_of_nonneg h.le, npDiv_some_ne_zero hs]

theorem rp_objective_eq {n : Nat} (S : Mat n) (b : Vec n) (w : Vec n)
    (h : 0 < quadForm S w) :
    RiskParity.objective S b w =
      some (∑ i, (w i * matVec S w i / Real.sqrt (quadForm S w) - b i) ^ 2) := by
  rw [RiskParity.objective]
  refine npSum_eq_some (fun i => ?_)
  rw [risk_contributions_pos S w h i]
  simp [npSub, npSq, npMul, pow_two]

theorem md_neg_objective_eq {n : Nat} (S : Mat n) (w : Vec n)
    (hd : ∀ i, 0 ≤ S i i) (h : 0 < quadForm S w) :
    MaxDiversification.neg_objective S w =
      some (-((∑ i, w i * Real.sqrt (S i i)) / Real.sqrt (quadForm S w))) := by
  have hnum : npSum (fun i => npMul (some (w i))
      (MaxDiversification.sigma_individual S i)) =
      some (∑ i, w i * Real.sqrt (S i i)) := by
    refine npSum_eq_some (fun i => ?_)
    rw [MaxDiversification.sigma_individual, npSqrt_of_nonneg (hd i)]
    rfl
  have hs : Real.sqrt (quadForm S w) ≠ 0 := ne_of_gt (Real.sqrt_pos.mpr h)
  rw [MaxDiversification.neg_objective, MaxDiversification.diversification_ratio,
    hnum, MaxDiversification.portfolio_volatility, npSqrt_of_nonneg h.le,
    npDiv_some_ne_zero hs]
  rfl

/-! Claim theorems. -/

/-- C1: for every oracle, every input and every return grid (explicit or
derived, both being plain lists of target returns), the efficient-frontier
sweep is the pointwise map of the per-point sub-solve over the grid, so the
returned volatility sequence has exactly one entry per grid value in the same
order as the grid; a grid point whose sub-problem does not converge is
recorded as the non-finite entry NaN (`none`) in that position; the sweep is
append-homomorphic, so a single point's failure never aborts or alters the
rest of the sweep; and with an explicit grid `efficient_frontier` always
returns a frontier, never an error. -/
theorem claim_C1_frontier_missing_entries {n : Nat} (m : Minimizer n)
    (mu : Vec n) (S : Mat n) (rf : ℝ) (short_allowed : Bool) (points : Nat)
    (grid : List ℝ) :
    Markowitz.frontier_vols m mu S short_allowed grid =
      grid.map (Markowitz.frontier_point m mu S short_allowed) ∧
    (Markowitz.frontier_vols m mu S short_allowed grid).length = grid.length ∧
    (∀ g2 : List ℝ, Markowitz.frontier_vols m mu S short_allowed (grid ++ g2) =
      Markowitz.frontier_vols m mu S short_allowed grid ++
        Markowitz.frontier_vols m mu S short_allowed g2) ∧
    (∀ (i : Nat) (r : ℝ), grid[i]? = some r →
      (m (Markowitz.frontier_call mu S short_allowed r)).success = false →
      (Markowitz.frontier_vols m mu S short_allowed grid)[i]? = some none) ∧
    Markowitz.efficient_frontier m mu S rf (some grid) short_allowed points =
      Except.ok (grid, Markowitz.frontier_vols m mu S short_allowed grid) := by
  refine ⟨frontier_vols_eq_map m mu S short_allowed grid,
    frontier_vols_length m mu S short_allowed grid,
    fun g2 => frontier_vols_append m mu S short_allowed grid g2,
    fun i r hir hfail => ?_, rfl⟩
  rw [frontier_vols_getElem, hir, Option.map_some',
    frontier_point_of_failure m mu S short_allowed r hfail]

/-- Witness for C1 on explicit data: with an oracle that never converges, the
sweep over a two-point grid still returns two entries and records NaN at the
failed first position. -/
theorem claim_C1_witness :
    (Markowitz.frontier_vols failMinimizer oneVec oneMat false [0, 1]).length = 2 ∧
    (Markowitz.frontier_vols failMinimizer oneVec oneMat false [0, 1])[0]? =
      some none :=
  ⟨(claim_C1_frontier_missing_entries failMinimizer oneVec oneMat 0 false 5
      [0, 1]).2.1,
   (claim_C1_frontier_missing_entries failMinimizer oneVec oneMat 0 false 5
      [0, 1]).2.2.2.1 0 0 rfl rfl⟩

/-- C2: when `efficient_frontier` is called without an explicit return grid,
it derives minRet and maxRet as the expected returns of the minimum-variance
and tangency portfolios, builds the evenly spaced inclusive grid of `points`
values from minRet to maxRet (`points` defaults to 50; a single-point request
yields just `[minRet]`) and sweeps it pointwise, each grid point's sub-problem
being issued with the uniform 1/n initial guess, independently of every other
point (the sweep is a `map`, with no warm-starting). -/
theorem claim_C2_default_grid {n : Nat} (m : Minimizer n) (mu : Vec n)
    (S : Mat n) (rf : ℝ) (short_allowed : Bool) (points : Nat)
    (wMin wTan : Vec n)
    (hm : Markowitz.min_variance_portfolio m S false = some wMin)
    (ht : Markowitz.tangency_portfolio m mu S rf false = some wTan) :
    Markowitz.efficient_frontier m mu S rf none short_allowed points =
      Except.ok (Markowitz.linspace (npDot wMin mu) (npDot wTan mu) points,
        (Markowitz.linspace (npDot wMin mu) (npDot wTan mu) points).map
          (Markowitz.frontier_point m mu S short_allowed)) ∧
    (Markowitz.linspace (npDot wMin mu) (npDot wTan mu) points).length =
      points ∧
    Markowitz.linspace (npDot wMin mu) (npDot wTan mu) 1 = [npDot wMin mu] ∧
    (∀ i : Nat, 2 ≤ points → i < points →
      (Markowitz.linspace (npDot wMin mu) (npDot wTan mu) points)[i]? =
        some (npDot wMin mu +
          (i : ℝ) * (npDot wTan mu - npDot wMin mu) / ((points : ℝ) - 1))) ∧
    (2 ≤ points →
      (Markowitz.linspace (npDot wMin mu) (npDot wTan mu) points)[points - 1]? =
        some (npDot wTan mu)) ∧
    (∀ r : ℝ,
      (Markowitz.frontier_call mu S short_allowed r).init = uniformVec n) ∧
    Markowitz.defaultPoints = 50 := by
  refine ⟨?_, linspace_length (npDot wMin mu) (npDot wTan mu) points,
    linspace_one (npDot wMin mu) (npDot wTan mu),
    fun i h2 hi => linspace_getElem h2 hi,
    fun h2 => linspace_last h2, fun r => rfl, rfl⟩
  simp only [Markowitz.efficient_frontier, hm, ht,
    Markowitz.portfolio_performance, frontier_vols_eq_map]

/-- Witness for C2 on explicit data: a one-asset universe with an oracle that
always converges to the single-asset portfolio; the defaulted grid request of
one point returns the single minRet point. -/
theorem claim_C2_witness :
    Markowitz.min_variance_portfolio okMinimizer oneMat false = some oneVec ∧
    Markowitz.tangency_portfolio okMinimizer oneVec oneMat 0 false =
      some oneVec ∧
    Markowitz.efficient_frontier okMinimizer oneVec oneMat 0 none false 1 =
      Except.ok
        (Markowitz.linspace (npDot oneVec oneVec) (npDot oneVec oneVec) 1,
         (Markowitz.linspace (npDot oneVec oneVec) (npDot oneVec oneVec) 1).map
           (Markowitz.frontier_point okMinimizer oneVec oneMat false)) :=
  ⟨rfl, rfl,
   (claim_C2_default_grid okMinimizer oneVec oneMat 0 false 1 oneVec oneVec
      rfl rfl).1⟩

/-- C3: for every oracle, inputs and short-selling toggle, when the underlying
constrained solve reports non-convergence both the minimum-variance and the
tangency solver return no weight vector (`none`); both are total functions
into `Option (Vec n)`, so non-convergence is a reportable outcome and the
caller is never crashed. -/
theorem claim_C3_nonconvergence_returns_none {n : Nat} (m : Minimizer n)
    (mu : Vec n) (S : Mat n) (rf : ℝ) (short_allowed : Bool)
    (h1 : (m (Markowitz.min_variance_call S short_allowed)).success = false)
    (h2 : (m (Markowitz.tangency_call mu rf S short_allowed)).success = false) :
    Markowitz.min_variance_portfolio m S short_allowed = none ∧
    Markowitz.tangency_portfolio m mu S rf short_allowed = none := by
  constructor
  · simp [Markowitz.min_variance_portfolio, h1]
  · simp [Markowitz.tangency_portfolio, h2]

/-- Witness for C3 on explicit data: an oracle that never converges makes both
solvers return `none`. -/
theorem claim_C3_witness :
    Markowitz.min_variance_portfolio failMinimizer oneMat false = none ∧
    Markowitz.tangency_portfolio failMinimizer oneVec oneMat 0 false = none :=
  ⟨(claim_C3_nonconvergence_returns_none failMinimizer oneVec oneMat 0 false
      rfl rfl).1,
   (claim_C3_nonconvergence_returns_none failMinimizer oneVec oneMat 0 false
      rfl rfl).2⟩

/-- C4: for every oracle, covariance DataFrame and bounds policy, the
risk-parity and max-diversification `optimize` return, exactly when the
underlying solve succeeds, the solution vector indexed by the covariance
column names in their original order, and otherwise raise an error carrying
the solver's internal diagnostic message. -/
theorem claim_C4_optimize_contract {n : Nat} (m : Minimizer n) (C : CovDF n)
    (rb : Option (Vec n)) (short_allowed : Bool) :
    ((m (RiskParity.optimize_call C (RiskParity.risk_budget n rb)
        short_allowed)).success = true →
      RiskParity.optimize m C rb short_allowed =
        Except.ok ((List.finRange n).map (fun i => (C.columns i,
          (m (RiskParity.optimize_call C (RiskParity.risk_budget n rb)
            short_allowed)).x i)))) ∧
    ((m (RiskParity.optimize_call C (RiskParity.risk_budget n rb)
        short_allowed)).success = false →
      RiskParity.optimize m C rb short_allowed =
        Except.error ("Optimization failed: " ++
          (m (RiskParity.optimize_call C (RiskParity.risk_budget n rb)
            short_allowed)).message)) ∧
    ((m (MaxDiversification.optimize_call C short_allowed)).success = true →
      MaxDiversification.optimize m C short_allowed =
        Except.ok ((List.finRange n).map (fun i => (C.columns i,
          (m (MaxDiversification.optimize_call C short_allowed)).x i)))) ∧
    ((m (MaxDiversification.optimize_call C short_allowed)).success = false →
      MaxDiversification.optimize m C short_allowed =
        Except.error ("Optimization failed: " ++
          (m (MaxDiversification.optimize_call C short_allowed)).message)) := by
  refine ⟨fun h => ?_, fun h => ?_, fun h => ?_, fun h => ?_⟩ <;>
    simp [RiskParity.optimize, MaxDiversification.optimize, h]

/-- Witness for C4 on explicit data: a converging oracle yields the Series
indexed by the column names; a non-converging oracle yields the error carrying
the diagnostic message. -/
theorem claim_C4_witness :
    RiskParity.optimize okMinimizer covOne none false =
      Except.ok ((List.finRange 1).map (fun i => (covOne.columns i,
        (okMinimizer (RiskParity.optimize_call covOne
          (RiskParity.risk_budget 1 none) false)).x i))) ∧
    MaxDiversification.optimize failMinimizer covOne false =
      Except.error ("Optimization failed: " ++
        (failMinimizer (MaxDiversification.optimize_call covOne false)).message) :=
  ⟨(claim_C4_optimize_contract okMinimizer covOne none false).1 rfl,
   (claim_C4_optimize_contract failMinimizer covOne none false).2.2.2 rfl⟩

/-- Counterexample for C5: on the symmetric non-PSD covariance `indefMat` and
weights `negWeight` the radicand is -2, beyond any floating tolerance, yet the
code's volatility silently evaluates to the non-finite NaN value (`none`) —
both in `MarkowitzOptimizer._portfolio_performance` and in
`MaxDiversificationOptimizer._portfolio_volatility` — while the contract of
the spec (`portfolioVolatilitySpec`) demands a `NumericError` at this input.
No error value exists in the code's return type at all. -/
theorem claim_C5_counterexample :
    quadForm indefMat negWeight < 0 ∧
    (Markowitz.portfolio_performance muTwo indefMat negWeight).2 = none ∧
    MaxDiversification.portfolio_volatility indefMat negWeight = none ∧
    portfolioVolatilitySpec indefMat negWeight =
      Except.error "NumericError" := by
  have hneg : quadForm indefMat negWeight < 0 := by
    rw [quadForm_indefMat]
    norm_num
  refine ⟨hneg, ?_, ?_, ?_⟩
  · exact npSqrt_of_neg hneg
  · exact npSqrt_of_neg hneg
  · rw [portfolioVolatilitySpec, if_pos hneg]

/-- C5 amended: `portfolioVolatility` computes `sqrt(wᵗΣw)`; when the radicand
is negative (non-PSD Σ) it silently produces the non-finite NaN value rather
than failing with a `NumericError`, and it does not clamp the result to zero;
for a non-negative radicand it returns the real square root. -/
theorem claim_C5_volatility_nan {n : Nat} (mu : Vec n) (S : Mat n)
    (w : Vec n) :
    (0 ≤ quadForm S w →
      (Markowitz.portfolio_performance mu S w).2 =
        some (Real.sqrt (quadForm S w)) ∧
      MaxDiversification.portfolio_volatility S w =
        some (Real.sqrt (quadForm S w))) ∧
    (quadForm S w < 0 →
      (Markowitz.portfolio_performance mu S w).2 = none ∧
      MaxDiversification.portfolio_volatility S w = none ∧
      (Markowitz.portfolio_performance mu S w).2 ≠ some 0) := by
  constructor
  · intro h
    exact ⟨npSqrt_of_nonneg h, npSqrt_of_nonneg h⟩
  · intro h
    refine ⟨npSqrt_of_neg h, npSqrt_of_neg h, ?_⟩
    have hn : (Markowitz.portfolio_performance mu S w).2 = none :=
      npSqrt_of_neg h
    rw [hn]
    exact fun hc => Option.noConfusion hc

/-- Witness for the amended C5 on explicit data: a well-posed one-asset input
with non-negative radicand, on which the volatility is the real square root. -/
theorem claim_C5_witness :
    0 ≤ quadForm oneMat oneVec ∧
    (Markowitz.portfolio_performance oneVec oneMat oneVec).2 =
      some (Real.sqrt (quadForm oneMat oneVec)) := by
  have h : 0 ≤ quadForm oneMat oneVec := by
    rw [quadForm_oneMat]
    norm_num
  exact ⟨h, ((claim_C5_volatility_nan oneVec oneMat oneVec).1 h).1⟩

/-- The zero covariance matrix gives a computed portfolio volatility of
exactly zero on the uniform two-asset portfolio. -/
theorem vol_zeroMat :
    RiskParity.portfolio_volatility zeroMat (uniformVec 2) = some 0 := by
  rw [RiskParity.portfolio_volatility, quadForm_zeroMat,
    npSqrt_of_nonneg le_rfl, Real.sqrt_zero]

/-- Counterexample for C6: on the all-zero covariance the computed portfolio
volatility is exactly zero, yet `RiskParityOptimizer._risk_contributions` and
the tangency `neg_sharpe_ratio` perform their division anyway and produce a
non-finite value (`none`) that propagates, while the contract of the spec
(`riskContributionsSpec`) demands the condition be detected as
`DegenerateInput` before the division. -/
theorem claim_C6_counterexample :
    RiskParity.portfolio_volatility zeroMat (uniformVec 2) = some 0 ∧
    RiskParity.risk_contributions zeroMat (uniformVec 2) 0 = none ∧
    Markowitz.neg_sharpe_ratio muTwo 0 zeroMat (uniformVec 2) = none ∧
    riskContributionsSpec zeroMat (uniformVec 2) =
      Except.error "DegenerateInput" := by
  refine ⟨vol_zeroMat, ?_, ?_, ?_⟩
  · simp only [RiskParity.risk_contributions]
    rw [vol_zeroMat, npDiv_some_zero]
  · rw [Markowitz.neg_sharpe_ratio, quadForm_zeroMat,
      npSqrt_of_nonneg le_rfl, Real.sqrt_zero, npDiv_some_zero]
  · rw [riskContributionsSpec,
      if_pos (by rw [quadForm_zeroMat, Real.sqrt_zero])]

/-- C6 amended: when the computed portfolio volatility is exactly zero, the
risk-contribution ratio and the Sharpe-ratio objective perform the division
regardless and every resulting entry is the non-finite NaN/Inf value
(`none`), which propagates downstream; no `DegenerateInput` detection happens
before the division. -/
theorem claim_C6_division_not_guarded {n : Nat} (mu : Vec n) (rf : ℝ)
    (S : Mat n) (w : Vec n)
    (h : RiskParity.portfolio_volatility S w = some 0) :
    (∀ i, RiskParity.risk_contributions S w i = none) ∧
    Markowitz.neg_sharpe_ratio mu rf S w = none := by
  constructor
  · intro i
    simp only [RiskParity.risk_contributions]
    rw [h, npDiv_some_zero]
  · have hsq : npSqrt (quadForm S w) = some 0 := h
    rw [Markowitz.neg_sharpe_ratio, hsq, npDiv_some_zero]

/-- Witness for the amended C6 on explicit data: the zero covariance matrix. -/
theorem claim_C6_witness :
    RiskParity.portfolio_volatility zeroMat (uniformVec 2) = some 0 ∧
    RiskParity.risk_contributions zeroMat (uniformVec 2) 1 = none :=
  ⟨vol_zeroMat,
   (claim_C6_division_not_guarded muTwo 0 zeroMat (uniformVec 2)
      vol_zeroMat).1 1⟩

/-- C7: the risk-parity objective at weights w equals
`Σᵢ (riskContributionᵢ − budgetᵢ)²` with
`riskContributionᵢ = wᵢ(Σw)ᵢ / sqrt(wᵗΣw)`, and when no risk budget is
supplied to the constructor the budget defaults to the uniform 1/n vector
(stated for a positive radicand, where every ratio is finite). -/
theorem claim_C7_rp_objective_and_default {n : Nat} (S : Mat n) (w : Vec n)
    (h : 0 < quadForm S w) :
    RiskParity.risk_budget n none = uniformVec n ∧
    RiskParity.objective S (RiskParity.risk_budget n none) w =
      some (∑ i, (w i * matVec S w i / Real.sqrt (quadForm S w) -
        uniformVec n i) ^ 2) :=
  ⟨rfl, rp_objective_eq S (uniformVec n) w h⟩

/-- Witness for C7 on explicit data: the one-asset unit covariance. -/
theorem claim_C7_witness :
    0 < quadForm oneMat oneVec ∧
    RiskParity.objective oneMat (RiskParity.risk_budget 1 none) oneVec =
      some (∑ i, (oneVec i * matVec oneMat oneVec i /
        Real.sqrt (quadForm oneMat oneVec) - uniformVec 1 i) ^ 2) := by
  have h : 0 < quadForm oneMat oneVec := by
    rw [quadForm_oneMat]
    norm_num
  exact ⟨h, (claim_C7_rp_objective_and_default oneMat oneVec h).2⟩

/-- C8: the max-diversification solver precomputes the standalone asset
volatilities as the elementwise square roots of the covariance diagonal, and
its objective at weights w is the negated diversification ratio
`-(w·σ)/sqrt(wᵗΣw)` (stated for non-negative variances and a positive
radicand, where every quantity is finite). -/
theorem claim_C8_maxdiv_objective {n : Nat} (S : Mat n) (w : Vec n)
    (hd : ∀ i, 0 ≤ S i i) (h : 0 < quadForm S w) :
    (∀ i, MaxDiversification.sigma_individual S i = npSqrt (S i i)) ∧
    MaxDiversification.neg_objective S w =
      some (-((∑ i, w i * Real.sqrt (S i i)) / Real.sqrt (quadForm S w))) :=
  ⟨fun _ => rfl, md_neg_objective_eq S w hd h⟩

/-- Witness for C8 on explicit data: the one-asset unit covariance. -/
theorem claim_C8_witness :
    0 < quadForm oneMat oneVec ∧
    MaxDiversification.neg_objective oneMat oneVec =
      some (-((∑ i, oneVec i * Real.sqrt (oneMat i i)) /
        Real.sqrt (quadForm oneMat oneVec))) := by
  have h : 0 < quadForm oneMat oneVec := by
    rw [quadForm_oneMat]
    norm_num
  have hd : ∀ i : Fin 1, 0 ≤ oneMat i i := fun i => by norm_num [oneMat]
  exact ⟨h, (claim_C8_maxdiv_objective oneMat oneVec hd h).2⟩

/-- C9: if `efficient_frontier` is called without an explicit return grid and
either the minimum-variance or the tangency endpoint sub-solve fails to
converge (returning no weight vector), the call raises an exception instead of
returning a frontier; with an explicit grid the call always returns a
frontier, so the missing-entry guarantee applies only to individual grid-point
sub-problems. -/
theorem claim_C9_endpoint_failure_raises {n : Nat} (m : Minimizer n)
    (mu : Vec n) (S : Mat n) (rf : ℝ) (short_allowed : Bool) (points : Nat) :
    (Markowitz.min_variance_portfolio m S false = none →
      Markowitz.efficient_frontier m mu S rf none short_allowed points =
        Except.error Markowitz.typeErrorMsg) ∧
    (Markowitz.tangency_portfolio m mu S rf false = none →
      Markowitz.efficient_frontier m mu S rf none short_allowed points =
        Except.error Markowitz.typeErrorMsg) ∧
    (∀ grid : List ℝ, ∃ p,
      Markowitz.efficient_frontier m mu S rf (some grid) short_allowed
        points = Except.ok p) := by
  refine ⟨fun h => ?_, fun h => ?_, fun grid => ⟨_, rfl⟩⟩
  · simp [Markowitz.efficient_frontier, h]
  · cases hmv : Markowitz.min_variance_portfolio m S false with
    | none => simp [Markowitz.efficient_frontier, hmv]
    | some wMin => simp [Markowitz.efficient_frontier, hmv, h]

/-- Witness for C9 on explicit data: an oracle that never converges makes the
defaulted-grid frontier call fail with the raised error. -/
theorem claim_C9_witness :
    Markowitz.min_variance_portfolio failMinimizer oneMat false = none ∧
    Markowitz.efficient_frontier failMinimizer oneVec oneMat 0 none false 5 =
      Except.error Markowitz.typeErrorMsg :=
  ⟨rfl,
   (claim_C9_endpoint_failure_raises failMinimizer oneVec oneMat 0 false 5).1
     rfl⟩

/-- C10: the risk-parity constructor accepts every caller-supplied budget
vector unchanged — the budget handling is a total function with no validation
and no error channel — and the objective is computed with that budget exactly
as given, `Σᵢ (riskContributionᵢ − bᵢ)²`, for arbitrary b including vectors
with negative entries or not summing to 1 (stated for a positive radicand,
where every ratio is finite). -/
theorem claim_C10_budget_unvalidated {n : Nat} (S : Mat n) (b : Vec n)
    (w : Vec n) (h : 0 < quadForm S w) :
    RiskParity.risk_budget n (some b) = b ∧
    RiskParity.objective S (RiskParity.risk_budget n (some b)) w =
      some (∑ i, (w i * matVec S w i / Real.sqrt (quadForm S w) - b i) ^ 2) :=
  ⟨rfl, rp_objective_eq S b w h⟩

/-- Witness for C10 on explicit data: a budget with a negative entry that does
not sum to 1 is accepted and used verbatim in the objective. -/
theorem claim_C10_witness :
    badBudget 0 < 0 ∧
    (∑ i, badBudget i) ≠ 1 ∧
    RiskParity.risk_budget 1 (some badBudget) = badBudget ∧
    RiskParity.objective oneMat (RiskParity.risk_budget 1 (some badBudget))
        oneVec =
      some (∑ i, (oneVec i * matVec oneMat oneVec i /
        Real.sqrt (quadForm oneMat oneVec) - badBudget i) ^ 2) := by
  have h : 0 < quadForm oneMat oneVec := by
    rw [quadForm_oneMat]
    norm_num
  refine ⟨by norm_num [badBudget], by norm_num [badBudget, Fin.sum_univ_one],
    (claim_C10_budget_unvalidated oneMat badBudget oneVec h).1,
    (claim_C10_budget_unvalidated oneMat badBudget oneVec h).2⟩

end PortOpt
